import Mathlib

/-!
# Verification of the Fusion-clone condition/action event engine

A shallow embedding of the rule-based scene scripting engine of
`multimediafuzion4k.py` (the condition/action event system, frame model,
project loader and main-loop frame switching) and of the load/save path of
`enginev0.py`.

Modelling conventions:
* Python machine floats produced by `float(...)` are modelled as `Rat`;
  the claims only depend on order/equality of values that a decimal literal
  grammar can denote, where `Rat` and IEEE doubles agree.
* Exceptions are modelled by `Option`: a raising computation returns `none`.
* The pygame key state is modelled as `Input`: `pressed key = none` models
  `getattr(pygame, key)` (or the subsequent indexing) raising, which
  `KeyPressed.check` catches and turns into `False`; `some b` models a valid
  key whose held-state is `b`.
* `eval` on color strings is modelled by `evalColorConst` for the pure
  value fragment — integer tuple literals (RGB or RGBA) and the module
  color constants — and, inside `ChangeObjectColor.execute` where the
  locals `frame` and `obj` are in scope, by `evalColorExpr`, which also
  models the mutating expression form `frame.remove_object(obj) or <expr>`:
  `eval` runs arbitrary code, so a color specification can mutate the frame
  before the `except` catches its failure. Strings outside this fragment
  are modelled as raising without side effects, which is faithful for
  malformed literals and unresolvable names (the shapes the project
  documents contain); `eval` of further expression forms is not modelled.
* Condition/action parameters are modelled as strings, the shape the Tkinter
  editor emits (every param entry is a `StringVar`) and the declarative
  format of spec §6 carries.
-/

set_option autoImplicit false

/-- Accumulate a digit string into a natural number (value of `int(s)`). -/
def digitsToNat (cs : List Char) : Nat :=
  cs.foldl (fun n c => n * 10 + (c.toNat - 48)) 0

/-- Parse an unsigned decimal literal `digits[.digits]` (at least one digit
overall), the fragment of Python's `float` grammar the project documents use.
Exponent forms, `inf`/`nan` and surrounding whitespace are not modelled. -/
def parseUnsignedRat? (cs : List Char) : Option Rat :=
  let ip := cs.takeWhile (·.isDigit)
  let rest := cs.dropWhile (·.isDigit)
  match rest with
  | [] => if ip.isEmpty then none else some (digitsToNat ip : Rat)
  | '.' :: fp =>
    if fp.all (·.isDigit) && !(ip.isEmpty && fp.isEmpty) then
      some ((digitsToNat ip : Rat) + (digitsToNat fp : Rat) / ((10 : Rat) ^ fp.length))
    else none
  | _ => none

/-- Model of Python `float(s)` on a string: `none` models `ValueError`. -/
def parseFloat? (s : String) : Option Rat :=
  match s.data with
  | '-' :: cs => (parseUnsignedRat? cs).map (fun q => -q)
  | '+' :: cs => parseUnsignedRat? cs
  | cs => parseUnsignedRat? cs

/-- Split a character list at every comma. -/
def splitCommas : List Char → List (List Char)
  | [] => [[]]
  | c :: cs =>
    let r := splitCommas cs
    if c = ',' then [] :: r
    else
      match r with
      | [] => [[c]]
      | g :: gs => (c :: g) :: gs

/-- Parse a color component: a nonempty digit string whose value is a byte
(0..255); anything else makes `pygame.Surface.fill` raise. -/
def parseByteDigits? (cs : List Char) : Option Int :=
  if !cs.isEmpty && cs.all (·.isDigit) then
    let n := digitsToNat cs
    if n ≤ 255 then some (n : Int) else none
  else none

/-- The color tuple literals `Surface.fill` accepts: `"(r,g,b)"` or
`"(r,g,b,a)"` (spaces ignored), components 0..255; the model keeps the RGB
part (the alpha of an RGBA fill is not part of the modelled object state). -/
def parseColorLit (s : String) : Option (Int × Int × Int) :=
  match s.data.filter (fun c => c ≠ ' ') with
  | '(' :: rest =>
    if rest.getLast? = some ')' then
      match splitCommas rest.dropLast with
      | [a, b, c] =>
        match parseByteDigits? a, parseByteDigits? b, parseByteDigits? c with
        | some x, some y, some z => some (x, y, z)
        | _, _, _ => none
      | [a, b, c, d] =>
        match parseByteDigits? a, parseByteDigits? b, parseByteDigits? c, parseByteDigits? d with
        | some x, some y, some z, some _ => some (x, y, z)
        | _, _, _, _ => none
      | _ => none
    else none
  | _ => none

/-- The module-level color constants of `multimediafuzion4k.py` that
`eval` resolves (the globals `WHITE`..`GRAY` defined at the top of the
file). -/
def colorConstant? (s : String) : Option (Int × Int × Int) :=
  if s == "WHITE" then some (255, 255, 255)
  else if s == "BLACK" then some (0, 0, 0)
  else if s == "RED" then some (255, 0, 0)
  else if s == "GREEN" then some (0, 255, 0)
  else if s == "BLUE" then some (0, 0, 255)
  else if s == "GRAY" then some (128, 128, 128)
  else none

/-- Side-effect-free fragment of `eval(color_str)` followed by
`Surface.fill`: tuple literals and the module color constants evaluate to a
fillable color; any other string is modelled as the evaluation (or the
fill) raising with no side effects — faithful for malformed literals and
unresolvable names. -/
def evalColorConst (s : String) : Option (Int × Int × Int) :=
  match parseColorLit s with
  | some c => some c
  | none => colorConstant? s

/-- Drop an exact character-list prefix, returning the remainder. -/
def dropPrefixChars? : List Char → List Char → Option (List Char)
  | [], rest => some rest
  | _ :: _, [] => none
  | p :: ps, c :: cs => if c = p then dropPrefixChars? ps cs else none

/-- The kind-specific payload of an engine object: `EngineObject` (generic
"Active Object"), `TextObject` (text + font size) or `CounterObject`
(numeric value + font size). -/
inductive ObjKind where
  | active : ObjKind
  | text : String → Int → ObjKind
  | counter : Rat → Int → ObjKind
deriving DecidableEq, Repr

/-- An engine object (`EngineObject` and subclasses). `x`,`y`,`w`,`h` model
`self.rect`; for text/counter objects the real rect height/width come from
font metrics, which are not modelled (the dummy `10 × 10` surface passed to
the base constructor is kept; no claim depends on text/counter geometry).
`fill` models the solid color the current `self.image` was filled with.
The animation fields (`anim_frames` etc.) are omitted: `load_project` never
populates them, so `EngineObject.update` leaves every loaded object
unchanged, and `TextObject.update`/`CounterObject.update` are `pass`. -/
structure Obj where
  name : String
  kind : ObjKind
  x : Int
  y : Int
  w : Int
  h : Int
  fill : Int × Int × Int
deriving DecidableEq, Repr

/-- `pygame.Rect.colliderect` on the two objects' rects: strict overlap,
with zero-sized rects never colliding. -/
def colliderect (a b : Obj) : Bool :=
  decide (0 < a.w) && decide (0 < a.h) && decide (0 < b.w) && decide (0 < b.h) &&
  decide (a.x < b.x + b.w) && decide (b.x < a.x + a.w) &&
  decide (a.y < b.y + b.h) && decide (b.y < a.y + a.h)

/-- The built-in condition classes of `multimediafuzion4k.py`:
`KeyPressed(key)`, `ObjectCollision(obj_a, obj_b)`,
`CompareCounter(counter_name, operator, value)` (the `value` field stores the
result of the `float(value) if value else 0` conversion done in
`CompareCounter.__init__`). -/
inductive Cond where
  | keyPressed : String → Cond
  | objectCollision : String → String → Cond
  | compareCounter : String → String → Rat → Cond
deriving DecidableEq, Repr

/-- The built-in action classes: `ChangeObjectColor(obj_name, color_str)`,
`DestroyObject(obj_name)`, `GoToFrame(frame_name)`,
`SetCounterValue(counter_name, value)` (again with the value converted at
construction time). -/
inductive Act where
  | changeObjectColor : String → String → Act
  | destroyObject : String → Act
  | goToFrame : String → Act
  | setCounterValue : String → Rat → Act
deriving DecidableEq, Repr

/-- `Event`: an ordered list of conditions and an ordered list of actions. -/
structure Event where
  conditions : List Cond
  actions : List Act
deriving DecidableEq, Repr

/-- A `Frame`: background color, the sprite group (a `pygame.sprite.Group`
iterates in insertion order, modelled as a list) and the event list. -/
structure FrameState where
  name : String
  bgColor : List Int
  objects : List Obj
  events : List Event
deriving DecidableEq, Repr

/-- The pygame key-state snapshot readable through `pygame.key.get_pressed`.
`pressed k = none` models a string that is not a pygame key attribute (the
`getattr`/indexing in `KeyPressed.check` raises); `some b` a valid key held
(`b = true`) or not. pygame only updates this state while the event queue is
pumped (`pygame.event.get()` at the top of each main-loop iteration), so the
snapshot is constant for the whole tick. -/
structure Input where
  pressed : String → Option Bool

/-- `Frame.get_object_by_name`: linear scan, first object with the name. -/
def getObjectByName (f : FrameState) (n : String) : Option Obj :=
  f.objects.find? (fun o => o.name == n)

/-- The operator dispatch chain of `CompareCounter.check`; an operator string
outside the six comparisons falls through to `False`. -/
def ratCmp (op : String) (a b : Rat) : Bool :=
  if op == "==" then a == b
  else if op == "!=" then !(a == b)
  else if op == "<" then decide (a < b)
  else if op == "<=" then decide (a ≤ b)
  else if op == ">" then decide (b < a)
  else if op == ">=" then decide (b ≤ a)
  else false

/-- `Condition.check` for the three built-in conditions. -/
def condCheck (inp : Input) (f : FrameState) : Cond → Bool
  | .keyPressed key => (inp.pressed key).getD false
  | .objectCollision a b =>
    match getObjectByName f a, getObjectByName f b with
    | some oa, some ob => colliderect oa ob
    | _, _ => false
  | .compareCounter n op v =>
    match getObjectByName f n with
    | some o =>
      match o.kind with
      | .counter val _ => ratCmp op val v
      | _ => false
    | none => false

/-- In-place mutation of the first object with a given name (the object
`get_object_by_name` returns, aliased inside the sprite group). -/
def updateFirstByName : List Obj → String → (Obj → Obj) → List Obj
  | [], _, _ => []
  | o :: os, n, g => if o.name == n then g o :: os else o :: updateFirstByName os n g

/-- `Group.remove` of the object `get_object_by_name` found: drops the first
object with the name. -/
def removeFirstByName : List Obj → String → List Obj
  | [], _ => []
  | o :: os, n => if o.name == n then os else o :: removeFirstByName os n

/-- Model of `c = eval(self.color_str)` inside `ChangeObjectColor.execute`,
where the locals `frame` and `obj` (the object `get_object_by_name` found)
are in scope: returns the frame after any side effects of the evaluation
together with the color value, `none` standing for the evaluation or the
subsequent `fill` raising. Beyond the pure fragment of `evalColorConst`,
the mutating expression form `"frame.remove_object(obj) or <expr>"` is
modelled: `remove_object` removes the found object and returns `None`
(falsy), so evaluation continues with `<expr>`. -/
def evalColorExpr (s : String) (f : FrameState) (n : String) :
    FrameState × Option (Int × Int × Int) :=
  match dropPrefixChars? "frame.remove_object(obj) or ".data s.data with
  | some rest =>
    ({ f with objects := removeFirstByName f.objects n }, evalColorConst (String.mk rest))
  | none => (f, evalColorConst s)

/-- `Action.execute` for the four built-in actions. The state is the pair of
the frame being mutated and the global `ENGINE_CURRENT_FRAME` cell (`none`
models Python `None`); no action can reach any other engine state. -/
def actExec (a : Act) (s : FrameState × Option String) : FrameState × Option String :=
  match a, s with
  | .changeObjectColor n cs, (f, p) =>
    match getObjectByName f n with
    | none => (f, p)
    | some _ =>
      match evalColorExpr cs f n with
      | (f2, none) => (f2, p)
      | (f2, some c) =>
        ({ f2 with objects := updateFirstByName f2.objects n (fun o => { o with fill := c }) }, p)
  | .destroyObject n, (f, p) =>
    match getObjectByName f n with
    | none => (f, p)
    | some _ => ({ f with objects := removeFirstByName f.objects n }, p)
  | .goToFrame n, (f, _p) => (f, some n)
  | .setCounterValue n v, (f, p) =>
    match getObjectByName f n with
    | some o =>
      match o.kind with
      | .counter _ _ =>
        let setVal : Obj → Obj := fun o =>
          match o.kind with
          | .counter _ fs => { o with kind := .counter v fs }
          | _ => o
        ({ f with objects := updateFirstByName f.objects n setVal }, p)
      | _ => (f, p)
    | none => (f, p)

/-- The action loop of `Event.run`: execute all actions in declaration
order, each observing the effects of the previous ones. -/
def execActions (acts : List Act) (s : FrameState × Option String) : FrameState × Option String :=
  acts.foldl (fun st a => actExec a st) s

/-- `Event.run`: if every condition checks true against the state as of the
start of the event's evaluation, run all actions; otherwise do nothing. -/
def eventRun (inp : Input) (ev : Event) (s : FrameState × Option String) : FrameState × Option String :=
  if ev.conditions.all (fun c => condCheck inp s.1 c) then execActions ev.actions s else s

/-- Per-object `update(dt)`. For every object `load_project` can construct
this is the identity: `anim_frames` is always empty (nothing ever populates
it) and the text/counter overrides are `pass`. -/
def objUpdate (dt : Rat) (o : Obj) : Obj :=
  let _ := dt
  o

/-- `Frame.update`: update every object, then run every event in
declaration order; the frame/pending state threads from each event to the
next (an earlier event's actions are visible to later events' conditions). -/
def frameUpdate (inp : Input) (dt : Rat) (f : FrameState) (pending : Option String) :
    FrameState × Option String :=
  let f0 : FrameState := { f with objects := f.objects.map (objUpdate dt) }
  f0.events.foldl (fun s e => eventRun inp e s) (f0, pending)

/-- What `Frame.draw` puts on the screen: the background fill and the
sprites drawn in container order. -/
structure RenderOut where
  bg : List Int
  sprites : List Obj
deriving DecidableEq, Repr

/-- `Frame.draw`. -/
def frameDraw (f : FrameState) : RenderOut :=
  ⟨f.bgColor, f.objects⟩

/-- `FusionCloneEngine` state: the `self.frames` dict (insertion-ordered,
modelled as an association list), `self.current_frame` (modelled by the
active frame's name — `load_project` stores every frame under its own name
and nothing else inserts, so `frame.name` and the dict key coincide), and
the global `ENGINE_CURRENT_FRAME` pending-switch cell (`none` = `None`). -/
structure EngineState where
  frames : List (String × FrameState)
  currentFrame : Option String
  pending : Option String
deriving DecidableEq, Repr

/-- Dict lookup on the frames table. -/
def lookupFrame (fs : List (String × FrameState)) (n : String) : Option FrameState :=
  (fs.find? (fun kv => kv.1 == n)).map (·.2)

/-- Dict assignment `self.frames[n] = f`: replace in place or append. -/
def insertFrame : List (String × FrameState) → String → FrameState → List (String × FrameState)
  | [], n, f => [(n, f)]
  | kv :: rest, n, f => if kv.1 == n then (n, f) :: rest else kv :: insertFrame rest n f

/-- `FusionCloneEngine.change_frame`: switch only if the name is a known
frame, otherwise do nothing. -/
def changeFrame (s : EngineState) (n : String) : EngineState :=
  if (lookupFrame s.frames n).isSome then { s with currentFrame := some n } else s

/-- The frame-jump check at the top of each `main_loop` iteration:
`if ENGINE_CURRENT_FRAME and self.current_frame and ENGINE_CURRENT_FRAME !=
self.current_frame.name: self.change_frame(...); ENGINE_CURRENT_FRAME =
None`. Note the Python truthiness test: a pending empty string is falsy and
is neither applied nor cleared. -/
def applyPendingSwitch (s : EngineState) : EngineState :=
  match s.pending, s.currentFrame with
  | some p, some cur =>
    if p ≠ "" ∧ p ≠ cur then { changeFrame s p with pending := none } else s
  | _, _ => s

/-- The body of a `main_loop` iteration after the frame-jump check: if a
frame is active, update it (threading the pending cell through its events),
write the mutated frame back (in Python the dict entry is the same aliased
object) and draw it; otherwise do nothing. The inner `lookupFrame` miss is
a model artifact: in every state the engine can reach, the current frame's
name is a key of the table. -/
def tickBody (inp : Input) (dt : Rat) (s : EngineState) : EngineState × Option RenderOut :=
  match s.currentFrame with
  | none => (s, none)
  | some c =>
    match lookupFrame s.frames c with
    | none => (s, none)
    | some f =>
      let fp := frameUpdate inp dt f s.pending
      ({ s with frames := insertFrame s.frames c fp.1, pending := fp.2 }, some (frameDraw fp.1))

/-- One `main_loop` iteration (a tick): the host event pump has already run
(delivering the quit signal externally and refreshing the key state that
`inp` snapshots); then the pending frame switch is applied, and then the
active frame is updated and drawn. -/
def mainLoopIter (inp : Input) (dt : Rat) (s : EngineState) : EngineState × Option RenderOut :=
  tickBody inp dt (applyPendingSwitch s)

/-- A condition or action entry of the declarative project document:
`{"type": ..., "params": {...}}`. Parameter values are the strings the
editor's entry widgets produce. -/
structure CAEntry where
  ctype : String
  params : List (String × String)
deriving DecidableEq, Repr

/-- An event entry of the document. -/
structure EvtEntry where
  conditions : List CAEntry
  actions : List CAEntry
deriving DecidableEq, Repr

/-- An object entry of the document, with the fields `load_project` reads
(`otype` is the JSON key `"type"`). The kind-specific fields are present
with their defaults when unused, as the editor writes them. -/
structure ObjEntry where
  otype : String
  name : String
  x : Int
  y : Int
  w : Int
  h : Int
  color : String
  text : String
  fontSize : Int
  initialValue : Rat
deriving DecidableEq, Repr

/-- A frame entry of the document. -/
structure FrameEntry where
  name : String
  bgColor : List Int
  objects : List ObjEntry
  events : List EvtEntry
deriving DecidableEq, Repr

/-- The declarative project document (`project_data`). -/
structure Doc where
  frames : List FrameEntry
deriving DecidableEq, Repr

/-- Membership of a type name in `registered_conditions` after the
`ExamplePlugin` merge: `KeyPressed`, `ObjectCollision` built in,
`CompareCounter` from the plugin. -/
def condRegistered (t : String) : Bool :=
  t == "KeyPressed" || t == "ObjectCollision" || t == "CompareCounter"

/-- Membership of a type name in `registered_actions` after the plugin
merge. -/
def actRegistered (t : String) : Bool :=
  t == "ChangeObjectColor" || t == "DestroyObject" || t == "GoToFrame" || t == "SetCounterValue"

/-- Value of `params[k]` (the loader only evaluates it after checking the
key is present). -/
def getParam (ps : List (String × String)) (k : String) : String :=
  ((ps.find? (fun kv => kv.1 == k)).map (·.2)).getD ""

/-- `build_class_instance` calls `cls(**param_dict)`: the keyword names
must match the constructor signature exactly (JSON object keys are unique),
otherwise Python raises `TypeError`. -/
def keysMatch (ps : List (String × String)) (expected : List String) : Bool :=
  expected.all (fun k => ps.any (fun kv => kv.1 == k)) &&
    ps.all (fun kv => expected.contains kv.1)

/-- The `float(value) if value else 0` conversion in the
`CompareCounter`/`SetCounterValue` constructors; `none` models `float`
raising `ValueError`. -/
def floatConvParam (v : String) : Option Rat :=
  if v == "" then some 0 else parseFloat? v

/-- `build_class_instance` on a condition class: `none` models the
constructor raising (bad keyword set or unparsable numeric value). Only
called on registered type names. -/
def buildCondInstance (t : String) (ps : List (String × String)) : Option Cond :=
  if t == "KeyPressed" then
    if keysMatch ps ["key"] then some (.keyPressed (getParam ps "key")) else none
  else if t == "ObjectCollision" then
    if keysMatch ps ["obj_a", "obj_b"] then
      some (.objectCollision (getParam ps "obj_a") (getParam ps "obj_b"))
    else none
  else if t == "CompareCounter" then
    if keysMatch ps ["counter_name", "operator", "value"] then
      (floatConvParam (getParam ps "value")).map (fun v =>
        .compareCounter (getParam ps "counter_name") (getParam ps "operator") v)
    else none
  else none

/-- `build_class_instance` on an action class. -/
def buildActInstance (t : String) (ps : List (String × String)) : Option Act :=
  if t == "ChangeObjectColor" then
    if keysMatch ps ["obj_name", "color_str"] then
      some (.changeObjectColor (getParam ps "obj_name") (getParam ps "color_str"))
    else none
  else if t == "DestroyObject" then
    if keysMatch ps ["obj_name"] then some (.destroyObject (getParam ps "obj_name")) else none
  else if t == "GoToFrame" then
    if keysMatch ps ["frame_name"] then some (.goToFrame (getParam ps "frame_name")) else none
  else if t == "SetCounterValue" then
    if keysMatch ps ["counter_name", "value"] then
      (floatConvParam (getParam ps "value")).map (fun v =>
        .setCounterValue (getParam ps "counter_name") v)
    else none
  else none

/-- The condition loop of `load_project`: an entry whose type name is not in
`registered_conditions` is skipped (`.get` returns `None`); a registered
entry is constructed, and a constructor exception aborts the whole load. -/
def loadConds : List CAEntry → Option (List Cond)
  | [] => some []
  | e :: rest =>
    if condRegistered e.ctype then
      match buildCondInstance e.ctype e.params with
      | none => none
      | some c => (loadConds rest).map (fun cs => c :: cs)
    else loadConds rest

/-- The action loop of `load_project`. -/
def loadActs : List CAEntry → Option (List Act)
  | [] => some []
  | e :: rest =>
    if actRegistered e.ctype then
      match buildActInstance e.ctype e.params with
      | none => none
      | some a => (loadActs rest).map (fun acts => a :: acts)
    else loadActs rest

/-- Build one `Event` from its document entry. -/
def loadEvent (ee : EvtEntry) : Option Event := do
  let cs ← loadConds ee.conditions
  let acts ← loadActs ee.actions
  pure ⟨cs, acts⟩

/-- Object construction in `load_project`:
`registered_object_types.get(obj_type, EngineObject)` falls back to the
generic class on an unknown type name; the color string goes through
`eval` (+ `Surface.fill`) with the module constants in scope, and its
failure aborts the load (there is no try/except around object
construction). -/
def buildObject (o : ObjEntry) : Option Obj :=
  (evalColorConst o.color).map (fun col =>
    if o.otype == "TextObject" then
      { name := o.name, kind := .text o.text o.fontSize, x := o.x, y := o.y, w := 10, h := 10, fill := col }
    else if o.otype == "CounterObject" then
      { name := o.name, kind := .counter o.initialValue o.fontSize, x := o.x, y := o.y, w := 10, h := 10, fill := col }
    else
      { name := o.name, kind := .active, x := o.x, y := o.y, w := o.w, h := o.h, fill := col })

/-- Build one `Frame` from its document entry: objects first, then events. -/
def loadFrameEntry (fe : FrameEntry) : Option FrameState := do
  let objs ← fe.objects.mapM buildObject
  let evts ← fe.events.mapM loadEvent
  pure { name := fe.name, bgColor := fe.bgColor, objects := objs, events := evts }

/-- `FusionCloneEngine.load_project`: build every frame of the document and
store it under its name (`self.frames[fname] = f`); `none` models any
exception propagating out of the loader. -/
def loadProject (s : EngineState) (doc : Doc) : Option EngineState := do
  let fs ← doc.frames.foldlM
    (fun acc fe => (loadFrameEntry fe).map (fun f => insertFrame acc fe.name f))
    s.frames
  pure { s with frames := fs }

namespace V0

/-!
The `enginev0.py` variant. Its `Frame`/`Event`/condition/action classes are
textually the same evaluation semantics as above, so the runtime types are
shared; only the project loader and the Tkinter editor's load/save path
differ and are embedded here.
-/

/-- `params.get(k, d)` — the v0 loader reads parameters with defaults and
never raises on a missing key. -/
def getParamD (ps : List (String × String)) (k d : String) : String :=
  ((ps.find? (fun kv => kv.1 == k)).map (·.2)).getD d

/-- The v0 condition loop: only `KeyPressed` and `ObjectCollision` (with
param keys `obj_name_a`/`obj_name_b`) are recognized; anything else is
silently skipped. -/
def loadConds : List CAEntry → List Cond
  | [] => []
  | e :: rest =>
    if e.ctype == "KeyPressed" then
      .keyPressed (getParamD e.params "key" "K_SPACE") :: loadConds rest
    else if e.ctype == "ObjectCollision" then
      .objectCollision (getParamD e.params "obj_name_a" "") (getParamD e.params "obj_name_b" "")
        :: loadConds rest
    else loadConds rest

/-- The v0 action loop: `ChangeObjectColor`, `DestroyObject`, `GoToFrame`;
anything else skipped. -/
def loadActs : List CAEntry → List Act
  | [] => []
  | e :: rest =>
    if e.ctype == "ChangeObjectColor" then
      .changeObjectColor (getParamD e.params "obj_name" "") (getParamD e.params "color" "(255,0,0)")
        :: loadActs rest
    else if e.ctype == "DestroyObject" then
      .destroyObject (getParamD e.params "obj_name" "") :: loadActs rest
    else if e.ctype == "GoToFrame" then
      .goToFrame (getParamD e.params "frame_name" "") :: loadActs rest
    else loadActs rest

/-- The module color constants of `enginev0.py` in scope for its `eval`
(that file defines `WHITE`..`BLUE` but no `GRAY`). -/
def colorConstant? (s : String) : Option (Int × Int × Int) :=
  if s == "WHITE" then some (255, 255, 255)
  else if s == "BLACK" then some (0, 0, 0)
  else if s == "RED" then some (255, 0, 0)
  else if s == "GREEN" then some (0, 255, 0)
  else if s == "BLUE" then some (0, 0, 255)
  else none

/-- Side-effect-free fragment of v0's load-time `eval(color)` + fill. -/
def evalColorConst (s : String) : Option (Int × Int × Int) :=
  match parseColorLit s with
  | some c => some c
  | none => colorConstant? s

/-- v0 object construction: every object is a plain `EngineObject`; the
color string goes through `eval` + `Surface.fill`. -/
def buildObject (o : ObjEntry) : Option Obj :=
  (evalColorConst o.color).map (fun col =>
    { name := o.name, kind := .active, x := o.x, y := o.y, w := o.w, h := o.h, fill := col })

/-- Build one v0 `Frame` from its document entry. -/
def loadFrameEntry (fe : FrameEntry) : Option FrameState := do
  let objs ← fe.objects.mapM buildObject
  pure { name := fe.name, bgColor := fe.bgColor, objects := objs,
         events := fe.events.map (fun ee => ⟨loadConds ee.conditions, loadActs ee.actions⟩) }

/-- `FusionCloneEngine.load_project` of `enginev0.py`. -/
def loadProject (s : EngineState) (doc : Doc) : Option EngineState := do
  let fs ← doc.frames.foldlM
    (fun acc fe => (loadFrameEntry fe).map (fun f => insertFrame acc fe.name f))
    s.frames
  pure { s with frames := fs }

/-- The editor's state relevant to persistence: the global `project_data`
document and `self.current_filename`. `json.load`/`json.dump` are mutually
inverse on JSON value trees (the level at which spec §6 demands semantic,
field-order-insensitive equality), so the model works directly with the
parsed document. -/
structure EditorState where
  projectData : Doc
  currentFilename : Option String
deriving DecidableEq, Repr

/-- `FusionCloneEditor.open_project`: parse the chosen file and replace the
global `project_data` with the parsed document. -/
def openProject (ed : EditorState) (path : String) (doc : Doc) : EditorState :=
  let _ := ed
  { projectData := doc, currentFilename := some path }

/-- `FusionCloneEditor.save_project` with a current filename: the document
written to disk is exactly `json.dump(project_data)` — the editor never
re-serializes engine state. The result is the value tree of the saved
file. -/
def saveProject (ed : EditorState) : Doc :=
  ed.projectData

/-- The "Run" path: construct a fresh engine and `load_project` the current
document into it. Loading reads the document and never writes to it. -/
def runGameEngine (ed : EditorState) : Option EngineState :=
  loadProject { frames := [], currentFrame := none, pending := none } ed.projectData

end V0

/-! ## Helper lemmas -/

def atMostOneNamed (objs : List Obj) (n : String) : Prop :=
  (objs.filter (fun o => o.name == n)).length ≤ 1

instance (objs : List Obj) (n : String) : Decidable (atMostOneNamed objs n) := by
  unfold atMostOneNamed; infer_instance

theorem lookupFrame_insertFrame (l : List (String × FrameState)) (n m : String) (f : FrameState) :
    lookupFrame (insertFrame l n f) m = if m = n then some f else lookupFrame l m := by
  induction l with
  | nil =>
    by_cases h : m = n
    · subst h; simp [insertFrame, lookupFrame, List.find?]
    · have hb : (n == m) = false := beq_eq_false_iff_ne.mpr (fun he => h he.symm)
      simp [insertFrame, lookupFrame, List.find?, hb, h]
  | cons kv rest ih =>
    by_cases hk : kv.1 = n
    · have hkb : (kv.1 == n) = true := beq_iff_eq.mpr hk
      by_cases hm : m = n
      · have hb : (n == m) = true := beq_iff_eq.mpr hm.symm
        simp [insertFrame, lookupFrame, List.find?, hkb, hb, hm]
      · have hb : (n == m) = false := beq_eq_false_iff_ne.mpr (fun he => hm he.symm)
        have hkm : (kv.1 == m) = false := by rw [hk]; exact hb
        simp [insertFrame, lookupFrame, List.find?, hkb, hb, hkm, hm]
    · have hkb : (kv.1 == n) = false := beq_eq_false_iff_ne.mpr hk
      by_cases hm : m = kv.1
      · have hkm : (kv.1 == m) = true := beq_iff_eq.mpr hm.symm
        have hmn : ¬ m = n := fun h => hk (hm ▸ h ▸ rfl)
        simp [insertFrame, lookupFrame, List.find?, hkb, hkm, hmn]
      · have hkm : (kv.1 == m) = false := beq_eq_false_iff_ne.mpr (fun he => hm he.symm)
        have := ih
        simp only [lookupFrame] at this ⊢
        simp [insertFrame, List.find?, hkb, hkm, this]

theorem filter_cons_named (o : Obj) (os : List Obj) (n : String) :
    (o :: os).filter (fun x => x.name == n) =
      if o.name = n then o :: os.filter (fun x => x.name == n)
      else os.filter (fun x => x.name == n) := by
  by_cases ho : o.name = n
  · simp [List.filter_cons, beq_iff_eq.mpr ho, ho]
  · simp [List.filter_cons, beq_eq_false_iff_ne.mpr ho, ho]

theorem find?_removeFirstByName (objs : List Obj) (n : String)
    (h : atMostOneNamed objs n) :
    (removeFirstByName objs n).find? (fun o => o.name == n) = none := by
  induction objs with
  | nil => simp [removeFirstByName]
  | cons o os ih =>
    by_cases ho : o.name = n
    · have hb : (o.name == n) = true := beq_iff_eq.mpr ho
      have hfil : (os.filter (fun x => x.name == n)).length = 0 := by
        unfold atMostOneNamed at h
        rw [filter_cons_named, if_pos ho] at h
        simpa using h
      have hrm : removeFirstByName (o :: os) n = os := by simp [removeFirstByName, hb]
      rw [hrm, List.find?_eq_none]
      intro x hx
      intro hxn
      have hmem : x ∈ os.filter (fun x => x.name == n) :=
        List.mem_filter.mpr ⟨hx, hxn⟩
      have : os.filter (fun x => x.name == n) = [] := List.eq_nil_of_length_eq_zero hfil
      rw [this] at hmem
      exact List.not_mem_nil x hmem
    · have hb : (o.name == n) = false := beq_eq_false_iff_ne.mpr ho
      have h' : atMostOneNamed os n := by
        unfold atMostOneNamed at h ⊢
        rwa [filter_cons_named, if_neg ho] at h
      simp [removeFirstByName, hb, List.find?, ih h']

theorem find?_of_unique_named (objs : List Obj) (n : String) (o : Obj)
    (h : atMostOneNamed objs n) (hm : o ∈ objs) (hn : o.name = n) :
    objs.find? (fun x => x.name == n) = some o := by
  induction objs with
  | nil => exact absurd hm (List.not_mem_nil o)
  | cons a os ih =>
    by_cases ha : a.name = n
    · have hab : (a.name == n) = true := beq_iff_eq.mpr ha
      have hoa : o = a := by
        rcases List.mem_cons.mp hm with h1 | h2
        · exact h1
        · exfalso
          have hofil : o ∈ os.filter (fun x => x.name == n) :=
            List.mem_filter.mpr ⟨h2, beq_iff_eq.mpr hn⟩
          have hpos : 1 ≤ (os.filter (fun x => x.name == n)).length :=
            List.length_pos.mpr (fun hnil => by rw [hnil] at hofil; exact List.not_mem_nil o hofil)
          unfold atMostOneNamed at h
          rw [filter_cons_named, if_pos ha] at h
          simp only [List.length_cons] at h
          omega
      subst hoa
      simp [List.find?, hab]
    · have hab : (a.name == n) = false := beq_eq_false_iff_ne.mpr ha
      have h' : atMostOneNamed os n := by
        unfold atMostOneNamed at h ⊢
        rwa [filter_cons_named, if_neg ha] at h
      have hos : o ∈ os := by
        rcases List.mem_cons.mp hm with h1 | h2
        · exact absurd (h1 ▸ hn) ha
        · exact h2
      simp [List.find?, hab, ih h' hos]

/-! ## C1: an Event fires all actions iff all conditions hold -/

/-- C1: running an Event against a Frame executes all its actions — in
declaration order, threading state from one action to the next
(`execActions` is exactly the action loop of `Event.run`) — when every
condition evaluates true against the Frame state at the start of the
Event's evaluation; if any condition evaluates false, nothing is executed
and the frame/pending state is returned unchanged. -/
theorem c1_event_fires_iff_all_conditions (inp : Input) (ev : Event) (f : FrameState)
    (p : Option String) :
    ((∀ c ∈ ev.conditions, condCheck inp f c = true) →
      eventRun inp ev (f, p) = execActions ev.actions (f, p)) ∧
    ((∃ c ∈ ev.conditions, condCheck inp f c = false) →
      eventRun inp ev (f, p) = (f, p)) := by
  constructor
  · intro h
    unfold eventRun
    rw [if_pos (List.all_eq_true.mpr h)]
  · rintro ⟨c, hc, hfalse⟩
    unfold eventRun
    rw [if_neg]
    intro hall
    have := List.all_eq_true.mp hall c hc
    rw [hfalse] at this
    exact Bool.false_ne_true this

/-- Concrete instantiation of `c1_event_fires_iff_all_conditions`: a
counter-compare event fires (and runs its `SetCounterValue` action) when the
counter matches, and does nothing when the counter does not match. -/
def c1inp : Input := Input.mk (fun _ => none)

def c1score : Obj :=
  { name := "Score", kind := ObjKind.counter 5 24, x := 0, y := 0, w := 10, h := 10,
    fill := (255, 255, 255) }

def c1ev : Event :=
  ⟨[.compareCounter "Score" "==" 5], [.setCounterValue "Score" 10]⟩

def c1frameHit : FrameState :=
  { name := "M", bgColor := [0, 0, 0], objects := [c1score], events := [c1ev] }

def c1scoreMiss : Obj :=
  { name := "Score", kind := ObjKind.counter 7 24, x := 0, y := 0, w := 10, h := 10,
    fill := (255, 255, 255) }

def c1frameMiss : FrameState :=
  { name := "M", bgColor := [0, 0, 0], objects := [c1scoreMiss], events := [c1ev] }

theorem c1_event_fires_iff_all_conditions_witness :
    eventRun c1inp c1ev (c1frameHit, none) = execActions c1ev.actions (c1frameHit, none) ∧
    eventRun c1inp c1ev (c1frameMiss, none) = (c1frameMiss, none) :=
  ⟨(c1_event_fires_iff_all_conditions c1inp c1ev c1frameHit none).1 (by decide),
   (c1_event_fires_iff_all_conditions c1inp c1ev c1frameMiss none).2
     ⟨.compareCounter "Score" "==" 5, by decide, by decide⟩⟩

/-! ## C3: CompareCounter semantics -/

/-- The mathematical relation named by an operator string, following the
spec wording: the six comparison operators, anything else denotes no
relation. -/
def specRel (op : String) (a b : Rat) : Prop :=
  if op = "==" then a = b
  else if op = "!=" then a ≠ b
  else if op = "<" then a < b
  else if op = "<=" then a ≤ b
  else if op = ">" then b < a
  else if op = ">=" then b ≤ a
  else False

instance (op : String) (a b : Rat) : Decidable (specRel op a b) := by
  unfold specRel; infer_instance

theorem ratCmp_eq_true_iff (op : String) (a b : Rat) :
    ratCmp op a b = true ↔ specRel op a b := by
  unfold ratCmp specRel
  by_cases h1 : op = "=="
  · subst h1; simp
  rw [if_neg (by simp [h1] : ¬ ((op == "==") = true)), if_neg h1]
  by_cases h2 : op = "!="
  · subst h2; simp
  rw [if_neg (by simp [h2] : ¬ ((op == "!=") = true)), if_neg h2]
  by_cases h3 : op = "<"
  · subst h3; simp
  rw [if_neg (by simp [h3] : ¬ ((op == "<") = true)), if_neg h3]
  by_cases h4 : op = "<="
  · subst h4; simp
  rw [if_neg (by simp [h4] : ¬ ((op == "<=") = true)), if_neg h4]
  by_cases h5 : op = ">"
  · subst h5; simp
  rw [if_neg (by simp [h5] : ¬ ((op == ">") = true)), if_neg h5]
  by_cases h6 : op = ">="
  · subst h6; simp
  rw [if_neg (by simp [h6] : ¬ ((op == ">=") = true)), if_neg h6]
  simp

/-- C3: for a Frame whose object names are unique (the spec's per-Frame
name-uniqueness invariant), `CompareCounter(N, op, v)` evaluates true exactly
when an object named `N` of counter kind exists whose value stands in the
relation denoted by `op` to `v`; unconditionally, it evaluates false when no
object named `N` exists, and false when the object named `N` is not of
counter kind. -/
theorem c3_compareCounter_semantics (inp : Input) (f : FrameState) (n op : String) (v : Rat) :
    (atMostOneNamed f.objects n →
      (condCheck inp f (.compareCounter n op v) = true ↔
        ∃ o ∈ f.objects, o.name = n ∧
          ∃ val fs, o.kind = ObjKind.counter val fs ∧ specRel op val v)) ∧
    (getObjectByName f n = none → condCheck inp f (.compareCounter n op v) = false) ∧
    (∀ o, getObjectByName f n = some o → (∀ val fs, o.kind ≠ ObjKind.counter val fs) →
      condCheck inp f (.compareCounter n op v) = false) := by
  refine ⟨?_, ?_, ?_⟩
  · intro huniq
    constructor
    · intro hcheck
      simp only [condCheck] at hcheck
      cases hfind : getObjectByName f n with
      | none => simp [hfind] at hcheck
      | some o =>
        cases hk : o.kind with
        | counter val fs =>
          simp only [hfind, hk] at hcheck
          have hfind' : f.objects.find? (fun x => x.name == n) = some o := hfind
          have hpred := List.find?_some hfind'
          exact ⟨o, List.mem_of_find?_eq_some hfind',
            beq_iff_eq.mp hpred, val, fs, hk,
            (ratCmp_eq_true_iff op val v).mp hcheck⟩
        | active => simp [hfind, hk] at hcheck
        | text t fs => simp [hfind, hk] at hcheck
    · rintro ⟨o, hmem, hname, val, fs, hkind, hrel⟩
      have hfind : getObjectByName f n = some o :=
        find?_of_unique_named f.objects n o huniq hmem hname
      simp only [condCheck, hfind, hkind]
      exact (ratCmp_eq_true_iff op val v).mpr hrel
  · intro h
    simp [condCheck, h]
  · intro o hfind hnc
    cases hk : o.kind with
    | counter val fs => exact absurd hk (hnc val fs)
    | active => simp [condCheck, hfind, hk]
    | text t fs => simp [condCheck, hfind, hk]

def c3inp : Input := Input.mk (fun _ => none)

def c3score : Obj :=
  { name := "Score", kind := ObjKind.counter 12 24, x := 0, y := 0, w := 10, h := 10,
    fill := (255, 255, 255) }

def c3label : Obj :=
  { name := "Label", kind := ObjKind.text "hi" 24, x := 0, y := 0, w := 10, h := 10,
    fill := (255, 255, 255) }

def c3frame : FrameState :=
  { name := "M", bgColor := [0, 0, 0], objects := [c3score, c3label], events := [] }

/-- Witness for `c3_compareCounter_semantics`: a frame holding a counter
"Score" of value 12 and a text object "Label". -/
theorem c3_compareCounter_semantics_witness :
    condCheck c3inp c3frame (.compareCounter "Score" ">=" 10) = true ∧
    condCheck c3inp c3frame (.compareCounter "Nobody" ">=" 10) = false ∧
    condCheck c3inp c3frame (.compareCounter "Label" ">=" 10) = false :=
  ⟨((c3_compareCounter_semantics c3inp c3frame "Score" ">=" 10).1 (by decide)).mpr
     ⟨c3score, by decide, rfl, 12, 24, rfl, by decide⟩,
   (c3_compareCounter_semantics c3inp c3frame "Nobody" ">=" 10).2.1 (by decide),
   (c3_compareCounter_semantics c3inp c3frame "Label" ">=" 10).2.2 c3label (by decide)
     (fun val fs h => ObjKind.noConfusion h)⟩

/-! ## C6: DestroyObject is immediately visible; absent objects -/

/-- C6: for a Frame with unique object names, after `DestroyObject(n)`
executes, no object named `n` remains, so an `ObjectCollision` naming `n`
(in either position) evaluated later in the same tick is false;
`DestroyObject` on a name with no matching object is a no-op; and
`ObjectCollision` evaluates false — not an error — whenever either named
object is absent. -/
theorem c6_destroy_visible_same_tick (inp : Input) (f : FrameState) (n m a b : String)
    (p : Option String) :
    (atMostOneNamed f.objects n →
      condCheck inp (actExec (.destroyObject n) (f, p)).1 (.objectCollision n m) = false ∧
      condCheck inp (actExec (.destroyObject n) (f, p)).1 (.objectCollision m n) = false) ∧
    (getObjectByName f n = none → actExec (.destroyObject n) (f, p) = (f, p)) ∧
    (getObjectByName f a = none ∨ getObjectByName f b = none →
      condCheck inp f (.objectCollision a b) = false) := by
  refine ⟨?_, ?_, ?_⟩
  · intro huniq
    have hnone : getObjectByName (actExec (.destroyObject n) (f, p)).1 n = none := by
      cases hfind : getObjectByName f n with
      | none => simp only [actExec, hfind]
      | some o =>
        simp only [actExec, hfind]
        exact find?_removeFirstByName f.objects n huniq
    constructor
    · cases hm2 : getObjectByName (actExec (.destroyObject n) (f, p)).1 m <;>
        simp [condCheck, hnone, hm2]
    · cases hm2 : getObjectByName (actExec (.destroyObject n) (f, p)).1 m <;>
        simp [condCheck, hnone, hm2]
  · intro h
    simp [actExec, h]
  · rintro (h | h)
    · cases h2 : getObjectByName f b <;> simp [condCheck, h, h2]
    · cases h2 : getObjectByName f a <;> simp [condCheck, h, h2]

def c6inp : Input := Input.mk (fun _ => none)

def c6P : Obj :=
  { name := "P", kind := ObjKind.active, x := 0, y := 0, w := 50, h := 50, fill := (255, 0, 0) }

def c6Q : Obj :=
  { name := "Q", kind := ObjKind.active, x := 10, y := 10, w := 50, h := 50, fill := (0, 255, 0) }

def c6frame : FrameState :=
  { name := "D", bgColor := [0, 0, 0], objects := [c6P, c6Q], events := [] }

/-- Witness for `c6_destroy_visible_same_tick`: overlapping objects "P" and
"Q"; destroying "P" makes both collision orders false, destroying the absent
"Gone" is a no-op, and a collision naming "Gone" is false. -/
theorem c6_destroy_visible_same_tick_witness :
    condCheck c6inp (actExec (.destroyObject "P") (c6frame, none)).1 (.objectCollision "P" "Q") = false ∧
    condCheck c6inp (actExec (.destroyObject "P") (c6frame, none)).1 (.objectCollision "Q" "P") = false ∧
    actExec (.destroyObject "Gone") (c6frame, none) = (c6frame, none) ∧
    condCheck c6inp c6frame (.objectCollision "Gone" "Q") = false :=
  ⟨((c6_destroy_visible_same_tick c6inp c6frame "P" "Q" "Gone" "Q" none).1 (by decide)).1,
   ((c6_destroy_visible_same_tick c6inp c6frame "P" "Q" "Gone" "Q" none).1 (by decide)).2,
   (c6_destroy_visible_same_tick c6inp c6frame "Gone" "Q" "Gone" "Q" none).2.1 (by decide),
   (c6_destroy_visible_same_tick c6inp c6frame "P" "Q" "Gone" "Q" none).2.2 (Or.inl (by decide))⟩

/-! ## C7: malformed evaluation-time parameters -/

/-- C7 (amended): a `KeyPressed` condition whose key string is not a pygame
key attribute evaluates false (the `try/except` in `KeyPressed.check`), and
no exception escapes the tick (the embedded check/execute functions are
total); a `ChangeObjectColor` whose color specification fails to evaluate
to a fillable color is a no-op WHEN the specification's evaluation itself
leaves the frame untouched — e.g. a malformed tuple literal or an
unresolvable name. That qualification is forced by
`c7_sideeffect_counterexample`: `eval` runs the specification with the
live frame and object in scope, so a side-effecting specification mutates
the frame before its exception is caught. -/
theorem c7_malformed_params_safe (inp : Input) (f : FrameState) (k n cs : String)
    (p : Option String) :
    (inp.pressed k = none → condCheck inp f (.keyPressed k) = false) ∧
    (evalColorExpr cs f n = (f, none) →
      actExec (.changeObjectColor n cs) (f, p) = (f, p)) := by
  constructor
  · intro h
    simp [condCheck, h]
  · intro h
    cases hfind : getObjectByName f n <;> simp [actExec, hfind, h]

def c7inp : Input := Input.mk (fun _ => none)

def c7box : Obj :=
  { name := "Box", kind := ObjKind.active, x := 0, y := 0, w := 50, h := 50, fill := (255, 0, 0) }

def c7frame : FrameState :=
  { name := "F", bgColor := [0, 0, 0], objects := [c7box], events := [] }

/-- Witness for `c7_malformed_params_safe`: the key "NOT_A_KEY" and the
color string "purple" — an unresolvable name whose evaluation raises
`NameError` without side effects — aimed at an existing object. -/
theorem c7_malformed_params_safe_witness :
    condCheck c7inp c7frame (.keyPressed "NOT_A_KEY") = false ∧
    actExec (.changeObjectColor "Box" "purple") (c7frame, none) = (c7frame, none) :=
  ⟨(c7_malformed_params_safe c7inp c7frame "NOT_A_KEY" "Box" "purple" none).1 rfl,
   (c7_malformed_params_safe c7inp c7frame "NOT_A_KEY" "Box" "purple" none).2 (by decide)⟩

def c7cBox : Obj :=
  { name := "Box", kind := ObjKind.active, x := 0, y := 0, w := 50, h := 50, fill := (255, 0, 0) }

def c7cFrame : FrameState :=
  { name := "F", bgColor := [0, 0, 0], objects := [c7cBox], events := [] }

/-- Counterexample to C7 as stated: the malformed color specification
`"frame.remove_object(obj) or x"` — its evaluation raises `NameError` on
the unresolvable `x`, and the bare `except` swallows it, so no exception
propagates — is NOT a no-op: `eval` first runs `frame.remove_object(obj)`,
removing the object from the frame. After the action the frame has lost
"Box" even though the parameter was malformed. -/
theorem c7_sideeffect_counterexample :
    (evalColorExpr "frame.remove_object(obj) or x" c7cFrame "Box").2 = none ∧
    actExec (.changeObjectColor "Box" "frame.remove_object(obj) or x") (c7cFrame, none)
      = ({ c7cFrame with objects := [] }, none) ∧
    actExec (.changeObjectColor "Box" "frame.remove_object(obj) or x") (c7cFrame, none)
      ≠ (c7cFrame, none) := by
  refine ⟨by decide, by decide, by decide⟩

/-! ## C8: all KeyPressed checks in a tick observe the same snapshot -/

/-- C8: `KeyPressed.check` reads only the key-state snapshot, never the
frame, and every check performed during one tick receives the single
snapshot the tick was entered with (pygame's key state changes only while
the event queue is pumped, which happens once at the top of each main-loop
iteration; nothing inside `Frame.update` pumps it). Hence the check result
is invariant under any frame mutation: across arbitrary frames, across a
preceding event's action effects, and across the whole frame update. -/
theorem c8_keyPressed_fixed_snapshot (inp : Input) (k : String) (f1 f2 : FrameState)
    (ev : Event) (s : FrameState × Option String) (dt : Rat) (f : FrameState)
    (p : Option String) :
    condCheck inp f1 (.keyPressed k) = condCheck inp f2 (.keyPressed k) ∧
    condCheck inp (eventRun inp ev s).1 (.keyPressed k) = condCheck inp s.1 (.keyPressed k) ∧
    condCheck inp (frameUpdate inp dt f p).1 (.keyPressed k) = condCheck inp f (.keyPressed k) :=
  ⟨rfl, rfl, rfl⟩

/-! ## Engine-runtime helper lemmas -/

theorem changeFrame_frames (s : EngineState) (n : String) :
    (changeFrame s n).frames = s.frames := by
  by_cases h : (lookupFrame s.frames n).isSome <;> simp [changeFrame, h]

theorem changeFrame_currentFrame (s : EngineState) (n : String) :
    (lookupFrame s.frames n).isSome = true → (changeFrame s n).currentFrame = some n := by
  intro h; simp [changeFrame, h]

theorem applyPendingSwitch_frames (s : EngineState) :
    (applyPendingSwitch s).frames = s.frames := by
  unfold applyPendingSwitch
  cases hp : s.pending with
  | none => cases hc : s.currentFrame <;> rfl
  | some p =>
    cases hc : s.currentFrame with
    | none => rfl
    | some cur =>
      by_cases h : p ≠ "" ∧ p ≠ cur
      · simp [h, changeFrame_frames]
      · simp [h]

theorem tickBody_currentFrame (inp : Input) (dt : Rat) (s : EngineState) :
    (tickBody inp dt s).1.currentFrame = s.currentFrame := by
  unfold tickBody
  cases hc : s.currentFrame with
  | none => exact hc
  | some c => cases hl : lookupFrame s.frames c <;> simp [hc, hl]

/-! ## C2: GoToFrame defers the switch to the next tick -/

/-- C2 (amended): `GoToFrame.execute` only records the requested name in the
`ENGINE_CURRENT_FRAME` cell, leaving the frame untouched; a tick consumes
the pending cell before any object update or event evaluation
(`mainLoopIter` is the tick body after `applyPendingSwitch`); the active
frame for a tick is fixed at that point and mid-tick `GoToFrame` cannot
change it; and a recorded NON-EMPTY pending name that resolves to a known
frame is the active frame from the start of the next tick. (The empty-string
qualification is forced by `c2_goToFrame_empty_counterexample`.) -/
theorem c2_goToFrame_deferred_switch (inp : Input) (dt : Rat) (s : EngineState)
    (n : String) (f : FrameState) (p : Option String) (X c : String) :
    (actExec (.goToFrame n) (f, p) = (f, some n)) ∧
    (mainLoopIter inp dt s = tickBody inp dt (applyPendingSwitch s)) ∧
    ((mainLoopIter inp dt s).1.currentFrame = (applyPendingSwitch s).currentFrame) ∧
    (s.pending = some X → X ≠ "" → s.currentFrame = some c →
      (lookupFrame s.frames X).isSome = true →
      (applyPendingSwitch s).currentFrame = some X) := by
  refine ⟨rfl, rfl, tickBody_currentFrame inp dt (applyPendingSwitch s), ?_⟩
  intro hp hX hc hl
  unfold applyPendingSwitch
  rw [hp, hc]
  show (if X ≠ "" ∧ X ≠ c then { changeFrame s X with pending := none } else s).currentFrame
      = some X
  by_cases hXc : X = c
  · rw [if_neg (fun h => h.2 hXc)]
    rw [hXc]
    exact hc
  · rw [if_pos ⟨hX, hXc⟩]
    show (changeFrame s X).currentFrame = some X
    exact changeFrame_currentFrame s X hl

def c2wfA : FrameState := { name := "A", bgColor := [0, 0, 0], objects := [], events := [] }
def c2wfB : FrameState := { name := "B", bgColor := [0, 0, 0], objects := [], events := [] }
def c2wSt : EngineState :=
  { frames := [("A", c2wfA), ("B", c2wfB)], currentFrame := some "A", pending := some "B" }
def c2winp : Input := Input.mk (fun _ => none)

/-- Witness for `c2_goToFrame_deferred_switch`: pending "B" with frames
"A"/"B" and current "A" is applied at the next tick start. -/
theorem c2_goToFrame_deferred_switch_witness :
    actExec (.goToFrame "B") (c2wfA, none) = (c2wfA, some "B") ∧
    (applyPendingSwitch c2wSt).currentFrame = some "B" :=
  ⟨(c2_goToFrame_deferred_switch c2winp 1 c2wSt "B" c2wfA none "B" "A").1,
   (c2_goToFrame_deferred_switch c2winp 1 c2wSt "B" c2wfA none "B" "A").2.2.2 rfl
     (by decide) rfl (by decide)⟩

def c2cfEmpty : FrameState := { name := "", bgColor := [0, 0, 0], objects := [], events := [] }
def c2cfA : FrameState :=
  { name := "A", bgColor := [0, 0, 0], objects := [], events := [⟨[], [.goToFrame ""]⟩] }
def c2cSt : EngineState :=
  { frames := [("", c2cfEmpty), ("A", c2cfA)], currentFrame := some "A", pending := none }
def c2cinp : Input := Input.mk (fun _ => none)

/-- Counterexample to C2 as stated: frame "A" is active and its event
executes `GoToFrame("")`; a frame named `""` exists, yet because of the
Python truthiness test `if ENGINE_CURRENT_FRAME` the switch is NOT applied
at the start of the next tick (nor ever): after two ticks the current frame
is still "A" and the pending cell still holds `""`. -/
theorem c2_goToFrame_empty_counterexample :
    lookupFrame c2cSt.frames "" = some c2cfEmpty ∧
    (mainLoopIter c2cinp 1 c2cSt).1.pending = some "" ∧
    (mainLoopIter c2cinp 1 (mainLoopIter c2cinp 1 c2cSt).1).1.currentFrame = some "A" ∧
    (mainLoopIter c2cinp 1 (mainLoopIter c2cinp 1 c2cSt).1).1.pending = some "" := by
  refine ⟨by decide, by decide, by decide, by decide⟩

/-! ## C5: unknown frame-switch requests are no-ops -/

/-- C5: `change_frame` with a name outside the frame table leaves the
engine state unchanged, and a pending transition to a non-empty unknown
name is dropped at the next tick boundary (`ENGINE_CURRENT_FRAME = None`)
with everything else — in particular the current Frame — unchanged. -/
theorem c5_unknown_frame_noop (s : EngineState) (n X c : String) :
    (lookupFrame s.frames n = none → changeFrame s n = s) ∧
    (s.pending = some X → lookupFrame s.frames X = none → X ≠ "" →
      s.currentFrame = some c → (lookupFrame s.frames c).isSome = true →
      applyPendingSwitch s = { s with pending := none }) := by
  constructor
  · intro h
    simp [changeFrame, h]
  · intro hp hlX hX hc hl
    have hXc : X ≠ c := by
      intro he
      rw [he] at hlX
      rw [hlX] at hl
      exact absurd hl (by simp)
    have hcf : changeFrame s X = s := by simp [changeFrame, hlX]
    unfold applyPendingSwitch
    rw [hp, hc]
    show (if X ≠ "" ∧ X ≠ c then { changeFrame s X with pending := none } else s)
        = { frames := s.frames, currentFrame := some c, pending := none }
    rw [if_pos ⟨hX, hXc⟩, hcf, ← hc]

def c5fA : FrameState := { name := "A", bgColor := [0, 0, 0], objects := [], events := [] }
def c5St : EngineState :=
  { frames := [("A", c5fA)], currentFrame := some "A", pending := some "Nowhere" }

/-- Witness for `c5_unknown_frame_noop`: a single frame "A" active with a
pending switch to the unknown name "Nowhere". -/
theorem c5_unknown_frame_noop_witness :
    changeFrame c5St "Nowhere" = c5St ∧
    applyPendingSwitch c5St = { c5St with pending := none } :=
  ⟨(c5_unknown_frame_noop c5St "Nowhere" "Nowhere" "A").1 (by decide),
   (c5_unknown_frame_noop c5St "Nowhere" "Nowhere" "A").2 rfl (by decide) (by decide) rfl
     (by decide)⟩

theorem tickBody_lookup_other (inp : Input) (dt : Rat) (s : EngineState) (m : String)
    (hm : s.currentFrame ≠ some m) :
    lookupFrame (tickBody inp dt s).1.frames m = lookupFrame s.frames m := by
  unfold tickBody
  split
  · rfl
  · rename_i c hc
    split
    · rfl
    · rename_i f hl
      have hmc : ¬ m = c := fun he => hm (by rw [he]; exact hc)
      show lookupFrame (insertFrame s.frames c (frameUpdate inp dt f s.pending).1) m
          = lookupFrame s.frames m
      rw [lookupFrame_insertFrame, if_neg hmc]

theorem tickBody_lookup_current (inp : Input) (dt : Rat) (s : EngineState) (c : String)
    (f : FrameState) (hc : s.currentFrame = some c) (hl : lookupFrame s.frames c = some f) :
    lookupFrame (tickBody inp dt s).1.frames c = some (frameUpdate inp dt f s.pending).1 := by
  unfold tickBody
  split
  · rename_i hnone
    rw [hnone] at hc
    exact Option.noConfusion hc
  · rename_i c2 hc2
    rw [hc2] at hc
    have hcc : c2 = c := Option.some.inj hc
    subst hcc
    split
    · rename_i hl2
      rw [hl2] at hl
      exact Option.noConfusion hl
    · rename_i f2 hl2
      rw [hl2] at hl
      have hff : f2 = f := Option.some.inj hl
      subst hff
      show lookupFrame (insertFrame s.frames c2 (frameUpdate inp dt f2 s.pending).1) c2
          = some (frameUpdate inp dt f2 s.pending).1
      rw [lookupFrame_insertFrame, if_pos rfl]

/-! ## C10: Frames persist across switches -/

/-- C10: frame switching (`change_frame`, the pending-switch application)
never touches the frame table, and a tick rewrites only the active frame's
entry — with the result of updating the stored state, not a fresh
construction — while every other frame's entry is untouched. Hence
re-activating a previously active Frame resumes exactly the mutated state
it was left in. -/
theorem c10_frames_persist_across_switches (s : EngineState) (n m : String) (inp : Input)
    (dt : Rat) :
    ((changeFrame s n).frames = s.frames) ∧
    ((applyPendingSwitch s).frames = s.frames) ∧
    ((applyPendingSwitch s).currentFrame ≠ some m →
      lookupFrame (mainLoopIter inp dt s).1.frames m = lookupFrame s.frames m) ∧
    (∀ c f, (applyPendingSwitch s).currentFrame = some c →
      lookupFrame s.frames c = some f →
      lookupFrame (mainLoopIter inp dt s).1.frames c =
        some (frameUpdate inp dt f (applyPendingSwitch s).pending).1) := by
  refine ⟨changeFrame_frames s n, applyPendingSwitch_frames s, ?_, ?_⟩
  · intro hm
    have h1 := tickBody_lookup_other inp dt (applyPendingSwitch s) m hm
    rw [applyPendingSwitch_frames] at h1
    exact h1
  · intro c f hc hlf
    have hl : lookupFrame (applyPendingSwitch s).frames c = some f := by
      rw [applyPendingSwitch_frames]
      exact hlf
    exact tickBody_lookup_current inp dt (applyPendingSwitch s) c f hc hl

def c10inp : Input := Input.mk (fun _ => none)

def c10P : Obj :=
  { name := "P", kind := ObjKind.active, x := 0, y := 0, w := 50, h := 50, fill := (255, 0, 0) }

def c10fA : FrameState :=
  { name := "A", bgColor := [0, 0, 0], objects := [c10P],
    events := [⟨[], [.destroyObject "P"]⟩] }

def c10fB : FrameState := { name := "B", bgColor := [0, 0, 0], objects := [], events := [] }

def c10St : EngineState :=
  { frames := [("A", c10fA), ("B", c10fB)], currentFrame := some "A", pending := none }

/-- Witness for `c10_frames_persist_across_switches`: ticking the active
frame "A" (whose event destroys "P") leaves "B"'s entry untouched and stores
the updated "A". -/
theorem c10_frames_persist_across_switches_witness :
    lookupFrame (mainLoopIter c10inp 1 c10St).1.frames "B" = lookupFrame c10St.frames "B" ∧
    lookupFrame (mainLoopIter c10inp 1 c10St).1.frames "A" =
      some (frameUpdate c10inp 1 c10fA (applyPendingSwitch c10St).pending).1 :=
  ⟨(c10_frames_persist_across_switches c10St "A" "B" c10inp 1).2.2.1 (by decide),
   (c10_frames_persist_across_switches c10St "A" "B" c10inp 1).2.2.2 "A" c10fA (by decide)
     (by decide)⟩

def c5cinp : Input := Input.mk (fun _ => none)

def c5cfA : FrameState := { name := "A", bgColor := [0, 0, 0], objects := [], events := [] }

def c5cSt : EngineState :=
  { frames := [("A", c5cfA)], currentFrame := some "A", pending := some "" }

/-- Counterexample to C5 as stated: a pending transition to the empty
string — a name not in the frame table — is NOT dropped at the next tick
boundary: the truthiness test skips it, so after a full tick the pending
cell still holds `""` (the current frame does remain active). -/
theorem c5_empty_pending_counterexample :
    lookupFrame c5cSt.frames "" = none ∧
    (mainLoopIter c5cinp 1 c5cSt).1.pending = some "" ∧
    (mainLoopIter c5cinp 1 c5cSt).1.currentFrame = some "A" := by
  refine ⟨by decide, by decide, by decide⟩

/-! ## C4: loading skips unregistered condition/action types -/

/-- The condition loop keeps exactly the registered entries, in their
original order. -/
theorem loadConds_filter_eq (es : List CAEntry) :
    loadConds es =
      (es.filter (fun e => condRegistered e.ctype)).mapM
        (fun e => buildCondInstance e.ctype e.params) := by
  induction es with
  | nil => rfl
  | cons e rest ih =>
    by_cases h : condRegistered e.ctype = true
    · rw [List.filter_cons]
      simp only [h, if_true]
      rw [List.mapM_cons]
      simp only [loadConds, h, if_true]
      cases hb : buildCondInstance e.ctype e.params with
      | none => simp
      | some c =>
        rw [ih]
        cases hmm : (rest.filter (fun e => condRegistered e.ctype)).mapM
            (fun e => buildCondInstance e.ctype e.params) <;> simp [hmm]
    · rw [List.filter_cons]
      have hf : condRegistered e.ctype = false := by simpa using h
      simp only [hf, if_false, Bool.false_eq_true]
      simp only [loadConds, hf, if_false, Bool.false_eq_true]
      exact ih

/-- The action loop keeps exactly the registered entries, in order. -/
theorem loadActs_filter_eq (es : List CAEntry) :
    loadActs es =
      (es.filter (fun e => actRegistered e.ctype)).mapM
        (fun e => buildActInstance e.ctype e.params) := by
  induction es with
  | nil => rfl
  | cons e rest ih =>
    by_cases h : actRegistered e.ctype = true
    · rw [List.filter_cons]
      simp only [h, if_true]
      rw [List.mapM_cons]
      simp only [loadActs, h, if_true]
      cases hb : buildActInstance e.ctype e.params with
      | none => simp
      | some c =>
        rw [ih]
        cases hmm : (rest.filter (fun e => actRegistered e.ctype)).mapM
            (fun e => buildActInstance e.ctype e.params) <;> simp [hmm]
    · rw [List.filter_cons]
      have hf : actRegistered e.ctype = false := by simpa using h
      simp only [hf, if_false, Bool.false_eq_true]
      simp only [loadActs, hf, if_false, Bool.false_eq_true]
      exact ih

theorem loadConds_isSome (es : List CAEntry)
    (h : ∀ e ∈ es, condRegistered e.ctype = true →
      (buildCondInstance e.ctype e.params).isSome = true) :
    (loadConds es).isSome = true := by
  induction es with
  | nil => rfl
  | cons e rest ih =>
    have hrest := ih (fun x hx hr => h x (List.mem_cons_of_mem e hx) hr)
    by_cases hreg : condRegistered e.ctype = true
    · have hb := h e (List.mem_cons_self e rest) hreg
      simp only [loadConds, hreg, if_true]
      cases hbv : buildCondInstance e.ctype e.params with
      | none => rw [hbv] at hb; exact absurd hb (by simp)
      | some c =>
        cases hlc : loadConds rest with
        | none => rw [hlc] at hrest; exact absurd hrest (by simp)
        | some cs => simp [hlc]
    · have hf : condRegistered e.ctype = false := by simpa using hreg
      simp only [loadConds, hf, if_false, Bool.false_eq_true]
      exact hrest

theorem loadActs_isSome (es : List CAEntry)
    (h : ∀ e ∈ es, actRegistered e.ctype = true →
      (buildActInstance e.ctype e.params).isSome = true) :
    (loadActs es).isSome = true := by
  induction es with
  | nil => rfl
  | cons e rest ih =>
    have hrest := ih (fun x hx hr => h x (List.mem_cons_of_mem e hx) hr)
    by_cases hreg : actRegistered e.ctype = true
    · have hb := h e (List.mem_cons_self e rest) hreg
      simp only [loadActs, hreg, if_true]
      cases hbv : buildActInstance e.ctype e.params with
      | none => rw [hbv] at hb; exact absurd hb (by simp)
      | some c =>
        cases hlc : loadActs rest with
        | none => rw [hlc] at hrest; exact absurd hrest (by simp)
        | some cs => simp [hlc]
    · have hf : actRegistered e.ctype = false := by simpa using hreg
      simp only [loadActs, hf, if_false, Bool.false_eq_true]
      exact hrest

theorem mapM_option_isSome {α β : Type} (g : α → Option β) (l : List α)
    (h : ∀ a ∈ l, (g a).isSome = true) : (l.mapM g).isSome = true := by
  induction l with
  | nil => rfl
  | cons a rest ih =>
    rw [List.mapM_cons]
    have ha := h a (List.mem_cons_self a rest)
    cases hg : g a with
    | none => rw [hg] at ha; exact absurd ha (by simp)
    | some b =>
      have hrest := ih (fun x hx => h x (List.mem_cons_of_mem a hx))
      cases hm : rest.mapM g with
      | none => rw [hm] at hrest; exact absurd hrest (by simp)
      | some bs => simp [hm]

theorem loadEvent_isSome (ee : EvtEntry)
    (hc : ∀ e ∈ ee.conditions, condRegistered e.ctype = true →
      (buildCondInstance e.ctype e.params).isSome = true)
    (ha : ∀ e ∈ ee.actions, actRegistered e.ctype = true →
      (buildActInstance e.ctype e.params).isSome = true) :
    (loadEvent ee).isSome = true := by
  have h1 := loadConds_isSome ee.conditions hc
  have h2 := loadActs_isSome ee.actions ha
  unfold loadEvent
  cases hlc : loadConds ee.conditions with
  | none => rw [hlc] at h1; exact absurd h1 (by simp)
  | some cs =>
    cases hla : loadActs ee.actions with
    | none => rw [hla] at h2; exact absurd h2 (by simp)
    | some acts => simp [hlc, hla]

theorem loadFrameEntry_isSome (fe : FrameEntry)
    (hobj : ∀ oe ∈ fe.objects, (buildObject oe).isSome = true)
    (hev : ∀ ev ∈ fe.events, (loadEvent ev).isSome = true) :
    (loadFrameEntry fe).isSome = true := by
  have h1 := mapM_option_isSome buildObject fe.objects hobj
  have h2 := mapM_option_isSome loadEvent fe.events hev
  unfold loadFrameEntry
  cases ho : fe.objects.mapM buildObject with
  | none => rw [ho] at h1; exact absurd h1 (by simp)
  | some objs =>
    cases he : fe.events.mapM loadEvent with
    | none => rw [he] at h2; exact absurd h2 (by simp)
    | some evts => simp [ho, he]

theorem foldl_load_isSome (fes : List FrameEntry) (acc : List (String × FrameState))
    (h : ∀ fe ∈ fes, (loadFrameEntry fe).isSome = true) :
    (fes.foldlM
      (fun acc fe => (loadFrameEntry fe).map (fun f => insertFrame acc fe.name f))
      acc).isSome = true := by
  induction fes generalizing acc with
  | nil => rfl
  | cons fe rest ih =>
    rw [List.foldlM_cons]
    have hf := h fe (List.mem_cons_self fe rest)
    cases hlf : loadFrameEntry fe with
    | none => rw [hlf] at hf; exact absurd hf (by simp)
    | some f =>
      haveI := ih (insertFrame acc fe.name f) (fun x hx => h x (List.mem_cons_of_mem fe hx))
      exact this

/-- C4 (amended): for an event entry whose REGISTERED condition/action
entries all construct successfully (their keyword sets match and numeric
parameters parse), `load_project` builds the Event from exactly the
registered entries in original order and does not raise — no matter how
many entries carry unregistered type names — and a document all of whose
registered entries construct AND all of whose object entries carry a color
specification that evaluates to a fillable color loads completely. (Both
qualifications are forced by `c4_unregistered_type_counterexample`: even
with an unregistered entry present, a registered entry with an unparsable
numeric parameter raises `ValueError` from `float`, and an object whose
color string does not evaluate raises out of the un-guarded `eval` during
object construction.) -/
theorem c4_load_skips_unregistered (ee : EvtEntry) (doc : Doc) (s : EngineState)
    (hc : ∀ e ∈ ee.conditions, condRegistered e.ctype = true →
      (buildCondInstance e.ctype e.params).isSome = true)
    (ha : ∀ e ∈ ee.actions, actRegistered e.ctype = true →
      (buildActInstance e.ctype e.params).isSome = true)
    (hobj : ∀ fe ∈ doc.frames, ∀ oe ∈ fe.objects, (buildObject oe).isSome = true)
    (hevc : ∀ fe ∈ doc.frames, ∀ ev ∈ fe.events, ∀ e ∈ ev.conditions,
      condRegistered e.ctype = true → (buildCondInstance e.ctype e.params).isSome = true)
    (heva : ∀ fe ∈ doc.frames, ∀ ev ∈ fe.events, ∀ e ∈ ev.actions,
      actRegistered e.ctype = true → (buildActInstance e.ctype e.params).isSome = true) :
    (∃ ev, loadEvent ee = some ev ∧
      some ev.conditions = (ee.conditions.filter (fun e => condRegistered e.ctype)).mapM
        (fun e => buildCondInstance e.ctype e.params) ∧
      some ev.actions = (ee.actions.filter (fun e => actRegistered e.ctype)).mapM
        (fun e => buildActInstance e.ctype e.params)) ∧
    (loadProject s doc).isSome = true := by
  constructor
  · have h1 := loadConds_isSome ee.conditions hc
    have h2 := loadActs_isSome ee.actions ha
    obtain ⟨cs, hcs⟩ := Option.isSome_iff_exists.mp h1
    obtain ⟨acts, hacts⟩ := Option.isSome_iff_exists.mp h2
    refine ⟨⟨cs, acts⟩, ?_, ?_, ?_⟩
    · unfold loadEvent
      rw [hcs, hacts]
      rfl
    · show some cs = _
      rw [← loadConds_filter_eq, hcs]
    · show some acts = _
      rw [← loadActs_filter_eq, hacts]
  · have hfold := foldl_load_isSome doc.frames s.frames
      (fun fe hfe => loadFrameEntry_isSome fe (hobj fe hfe)
        (fun ev hev => loadEvent_isSome ev (hevc fe hfe ev hev) (heva fe hfe ev hev)))
    unfold loadProject
    cases hf : doc.frames.foldlM
        (fun acc fe => (loadFrameEntry fe).map (fun f => insertFrame acc fe.name f))
        s.frames with
    | none => rw [hf] at hfold; exact absurd hfold (by simp)
    | some fs => simp [hf]

def c4wBox : ObjEntry :=
  { otype := "ActiveObject", name := "Box", x := 0, y := 0, w := 50, h := 50,
    color := "(255,0,0)", text := "Hello", fontSize := 24, initialValue := 0 }

def c4wEE : EvtEntry :=
  { conditions := [⟨"FooCondition", [("x", "1")]⟩, ⟨"KeyPressed", [("key", "K_SPACE")]⟩],
    actions := [⟨"BarAction", []⟩, ⟨"GoToFrame", [("frame_name", "Level1")]⟩] }

def c4wDoc : Doc :=
  ⟨[{ name := "Menu", bgColor := [0, 0, 0], objects := [c4wBox], events := [c4wEE] }]⟩

def c4wS : EngineState := { frames := [], currentFrame := none, pending := none }

/-- Witness for `c4_load_skips_unregistered`: a document whose only event
holds the unregistered "FooCondition"/"BarAction" next to valid
`KeyPressed`/`GoToFrame` entries loads successfully. -/
theorem c4_load_skips_unregistered_witness :
    (loadProject c4wS c4wDoc).isSome = true :=
  (c4_load_skips_unregistered c4wEE c4wDoc c4wS (by decide) (by decide) (by decide)
    (by decide) (by decide)).2

def c4cDoc : Doc :=
  ⟨[{ name := "Menu", bgColor := [0, 0, 0], objects := [],
      events := [⟨[⟨"FooCondition", []⟩,
        ⟨"CompareCounter",
          [("counter_name", "Score"), ("operator", ">="), ("value", "abc")]⟩], []⟩] }]⟩

def c4cBadColor : ObjEntry :=
  { otype := "ActiveObject", name := "Box", x := 0, y := 0, w := 50, h := 50,
    color := "abc", text := "Hello", fontSize := 24, initialValue := 0 }

def c4cDoc2 : Doc :=
  ⟨[{ name := "Menu", bgColor := [0, 0, 0], objects := [c4cBadColor],
      events := [⟨[⟨"FooCondition", []⟩], []⟩] }]⟩

/-- Counterexample to C4 as stated: both documents contain an event with
the unregistered type name "FooCondition", yet `load_project` raises on
each. In the first, the registered `CompareCounter` entry that follows has
`value = "abc"` and `float("abc")` in its constructor raises `ValueError`.
In the second, every condition/action entry is fine but an object carries
`color = "abc"`, and the un-guarded `eval("abc")` during object
construction raises `NameError`. Either way the load aborts (`none`). -/
theorem c4_unregistered_type_counterexample :
    condRegistered "FooCondition" = false ∧
    loadProject ⟨[], none, none⟩ c4cDoc = none ∧
    loadProject ⟨[], none, none⟩ c4cDoc2 = none :=
  ⟨rfl, by decide, by decide⟩

/-! ## C9: save-after-load round-trip -/

/-- C9: after opening a document, the saved file is semantically identical
to it, field for field. This holds by construction of the code: the sole
persisted state is the `project_data` value tree itself — `save_project`
emits `json.dump(project_data)` and never re-serializes engine state, while
the engine's `load_project` (exercised by the Run path, embedded as
`V0.runGameEngine`) only reads the document to build `Frame` objects and
never writes to it, and `json.load`/`json.dump` are mutually inverse on
JSON value trees, the level at which the spec's field-order-insensitive
semantic equality lives. -/
theorem c9_save_load_roundtrip (doc : Doc) (ed : V0.EditorState) (path : String) :
    V0.saveProject (V0.openProject ed path doc) = doc ∧
    V0.runGameEngine (V0.openProject ed path doc) =
      V0.loadProject { frames := [], currentFrame := none, pending := none } doc :=
  ⟨rfl, rfl⟩
